import Mathlib

/-!
Shallow embedding of `src/CfdOF/PostProcess/CfdReportingFunctions.py`.

The module is glue between the CfdOF workbench and the FreeCAD host: it
declares typed properties on a document object, attaches proxy objects, and
delegates UI actions.  We model a document object as a record carrying its
name, its type string, which proxies are attached, and the list of property
declarations issued on it; host-side actions (transactions, dialogs, console
output, scenegraph registration) are recorded as an explicit effect trace.
-/

namespace CfdReportingFunctions

/-- Python value used as the default of a declared property. -/
inductive PVal where
  | enum (values : List String)
  | link (target : Option String)
  | quantity (q : String)
  | pressure (q : String)
  | position (x y z : Int)
  | pbool (b : Bool)
  | vector (x y z : Int)
  | pint (n : Int)
  | pstr (s : String)
deriving DecidableEq, Repr

/-- A single `addObjectProperty` call: property name, default value, property
type string, group, and documentation string. -/
structure PropDecl where
  name : String
  value : PVal
  ptype : String
  group : String
  doc : String
deriving DecidableEq, Repr

/-- The module-level constant `OBJECT_NAMES`. -/
def OBJECT_NAMES : List String := ["Force", "ForceCoefficients", "Probes"]

/-- The module-level constant `OBJECT_DESCRIPTIONS`. -/
def OBJECT_DESCRIPTIONS : List String :=
  ["Calculate forces on patches", "Calculate force coefficients from patches",
   "Sample fields at specified locations"]

/-- A FreeCAD document object as this module uses it: internal name, the type
string passed to `addObject`, whether a `_CfdReportingFunctions` proxy has been
attached, the property declarations issued on it, and whether a view-provider
proxy has been attached to its view object. -/
structure DocObject where
  name : String
  objType : String
  hasProxy : Bool
  props : List PropDecl
  hasViewProxy : Bool
deriving DecidableEq, Repr

/-- Modelled from the spec: `CfdTools.addObjectProperty` is not under `src/`;
per the spec the host "handles persistence of declared properties", so we model
declaring a property as recording the declaration on the object, leaving an
already-declared property name untouched. -/
def addObjectProperty (obj : DocObject) (d : PropDecl) : DocObject :=
  if obj.props.any (fun p => p.name == d.name) then obj
  else { obj with props := obj.props ++ [d] }

/-- The property declarations issued by `_CfdReportingFunctions.initProperties`,
in source order. -/
def initPropertiesDecls : List PropDecl :=
  [ ⟨"ReportingFunctionType", .enum OBJECT_NAMES, "App::PropertyEnumeration", "",
      "Type of reporting function"⟩,
    ⟨"Patch", .link none, "App::PropertyLink", "Function object",
      "Patch on which to create the function object"⟩,
    ⟨"ReferenceDensity", .quantity "1 kg/m^3", "App::PropertyQuantity", "Forces",
      "Reference density"⟩,
    ⟨"ReferencePressure", .pressure "0 Pa", "App::PropertyPressure", "Forces",
      "Reference pressure"⟩,
    ⟨"CentreOfRotation", .position 0 0 0, "App::PropertyPosition", "Forces",
      "Centre of rotation"⟩,
    ⟨"WriteFields", .pbool false, "App::PropertyBool", "Forces",
      "Whether to write output fields"⟩,
    ⟨"Lift", .vector 1 0 0, "App::PropertyVector", "Force coefficients",
      "Lift direction (x component)"⟩,
    ⟨"Drag", .vector 0 1 0, "App::PropertyVector", "Force coefficients",
      "Drag direction"⟩,
    ⟨"Pitch", .vector 0 0 1, "App::PropertyVector", "Force coefficients",
      "Centre of pitch"⟩,
    ⟨"MagnitudeUInf", .quantity "1 m/s", "App::PropertyQuantity", "Force coefficients",
      "Freestream velocity magnitude"⟩,
    ⟨"LengthRef", .quantity "1 m", "App::PropertyQuantity", "Force coefficients",
      "Coefficient length reference"⟩,
    ⟨"AreaRef", .quantity "1 m^2", "App::PropertyQuantity", "Force coefficients",
      "Coefficient area reference"⟩,
    ⟨"NBins", .pint 0, "App::PropertyInteger", "Forces",
      "Number of bins"⟩,
    ⟨"Direction", .vector 1 0 0, "App::PropertyVector", "Forces",
      "Binning direction"⟩,
    ⟨"Cumulative", .pbool true, "App::PropertyBool", "Forces",
      "Cumulative"⟩,
    ⟨"SampleFieldName", .pstr "p", "App::PropertyString", "Probes",
      "Name of the field to sample"⟩,
    ⟨"ProbePosition", .position 0 0 0, "App::PropertyPosition", "Probes",
      "Location of the probe sample location"⟩ ]

/-- Body of `_CfdReportingFunctions.initProperties`: issue each declaration on
the object, in order. -/
def initProperties (obj : DocObject) : DocObject :=
  initPropertiesDecls.foldl addObjectProperty obj

/-- Lookup of an issued declaration by property name. -/
def declOf (n : String) : Option PropDecl :=
  initPropertiesDecls.find? (fun d => d.name == n)

/-- Body of `_CfdReportingFunctions.onDocumentRestored`: re-runs
`initProperties` on the object. -/
def onDocumentRestored (obj : DocObject) : DocObject :=
  initProperties obj

/-- The `_CfdReportingFunctions` proxy instance: `__init__` sets
`self.Type = "ReportingFunction"` and remembers the object. -/
structure CfdReportingFunctionsProxy where
  typeName : String
  objectName : String
deriving DecidableEq, Repr

/-- The `_ViewProviderCfdReportingFunctions` proxy instance: `__init__` sets
`self.taskd = None`. -/
structure ViewProviderProxy where
  taskd : Option Unit
deriving DecidableEq, Repr

/-- Host-side actions this module can trigger, recorded as trace events.  The
constructors `solveCase`, `resultsRead`, `resultsWrite` and `numericCompute`
stand for the actions the spec says never happen (solving, file I/O of
simulation results, numerical processing); the rest are the declarative and
delegating host calls actually present in the source. -/
inductive Effect where
  | addProperty (objName : String) (d : PropDecl)
  | openTransaction (s : String)
  | doCommand (s : String)
  | setEditCmd (objName : String)
  | errorBox (msg : String)
  | createTaskPanel (objName : String)
  | showObject (objName : String)
  | showDialog (objName : String)
  | closeDialog
  | showTaskView
  | printError (msg : String)
  | setCompSolid
  | addDisplayMode (mode : String)
  | setNeedsCaseRewrite
  | solveCase
  | resultsRead
  | resultsWrite
  | numericCompute
deriving DecidableEq, Repr

/-- An effect is glue (property declaration, icon/constant, or delegation to
the host) rather than solving, simulation-result file I/O, or numerics. -/
def Effect.isGlue : Effect → Bool
  | .solveCase => false
  | .resultsRead => false
  | .resultsWrite => false
  | .numericCompute => false
  | _ => true

/-- Trace of the `addObjectProperty` calls made by `initProperties` on the
object of the given name. -/
def initPropertiesTrace (objName : String) : List Effect :=
  initPropertiesDecls.map (Effect.addProperty objName)

/-- The parent analysis object as this module touches it: its proxy's
`loading` flag, its `NeedsCaseRewrite` property, and the names of the objects
added to it. -/
structure Analysis where
  loading : Bool
  needsCaseRewrite : Bool
  members : List String
deriving DecidableEq, Repr

/-- Host state visible to this module: `FreeCAD.GuiUp`, the active document's
objects, and `CfdTools.getActiveAnalysis()`. -/
structure World where
  guiUp : Bool
  doc : List DocObject
  activeAnalysis : Option Analysis
deriving DecidableEq, Repr

/-- `makeCfdReportingFunctions(name)`: add a `Part::FeaturePython` object to
the active document, attach the `_CfdReportingFunctions` proxy (which runs
`initProperties`), attach the view-provider proxy when `FreeCAD.GuiUp`, and
return the object.  Also returns the trace of property declarations. -/
def makeCfdReportingFunctions (w : World) (name : String) :
    World × DocObject × List Effect :=
  let obj0 : DocObject := ⟨name, "Part::FeaturePython", false, [], false⟩
  let obj1 := initProperties { obj0 with hasProxy := true }
  let obj2 := if w.guiUp then { obj1 with hasViewProxy := true } else obj1
  ({ w with doc := w.doc ++ [obj2] }, obj2, initPropertiesTrace name)

/-- The call `makeCfdReportingFunctions()` with the default argument
`name="ReportingFunction"`. -/
def makeCfdReportingFunctionsDefault (w : World) : World × DocObject × List Effect :=
  makeCfdReportingFunctions w "ReportingFunction"

/-- `_CommandCfdReportingFunctions.IsActive`: enabled exactly when
`CfdTools.getActiveAnalysis()` is not `None`. -/
def IsActive (active : Option Analysis) : Bool :=
  active.isSome

/-- `_CommandCfdReportingFunctions.GetResources`: icon path (joined from the
module path), menu text and tooltip. -/
def GetResources (modulePath : String) : String × String × String :=
  (modulePath ++ "/Gui/Icons/monitor.svg",
   "Reporting function",
   "Create a reporting function for the current case")

/-- `_CommandCfdReportingFunctions.Activated`: open a transaction, run
`makeCfdReportingFunctions()` through `doCommand`, add the result to the
active analysis, and enter edit mode on it.  `None` models the Python
exception raised when `getActiveAnalysis()` returns `None`. -/
def Activated (w : World) : Option (World × List Effect) :=
  match w.activeAnalysis with
  | none => none
  | some a =>
      let m := makeCfdReportingFunctions w "ReportingFunction"
      let obj := m.2.1
      let a1 : Analysis := { a with members := a.members ++ [obj.name] }
      some ({ m.1 with activeAnalysis := some a1 },
        [Effect.openTransaction "Create CfdReportingFunctions object",
         Effect.doCommand "from CfdOF.PostProcess import CfdReportingFunctions",
         Effect.doCommand "from CfdOF import CfdTools",
         Effect.doCommand "CfdTools.getActiveAnalysis().addObject(CfdReportingFunctions.makeCfdReportingFunctions())"]
        ++ m.2.2 ++ [Effect.setEditCmd obj.name])

/-- `_CfdReportingFunctions.execute`: the body is `pass`, so it returns `None`
and changes nothing, with no host effects. -/
def execute (self : CfdReportingFunctionsProxy) (obj : DocObject) :
    Option Unit × CfdReportingFunctionsProxy × DocObject × List Effect :=
  (none, self, obj, [])

/-- `_CfdReportingFunctions.__getstate__`: returns `None`. -/
def proxyGetState (_self : CfdReportingFunctionsProxy) : Option Unit :=
  none

/-- `_CfdReportingFunctions.__setstate__`: returns `None`, instance unchanged. -/
def proxySetState {α : Type} (self : CfdReportingFunctionsProxy) (_state : α) :
    Option Unit × CfdReportingFunctionsProxy :=
  (none, self)

/-- `_ViewProviderCfdReportingFunctions.__getstate__`: returns `None`. -/
def vpGetState (_self : ViewProviderProxy) : Option Unit :=
  none

/-- `_ViewProviderCfdReportingFunctions.__setstate__`: returns `None`,
instance unchanged. -/
def vpSetState {α : Type} (self : ViewProviderProxy) (_state : α) :
    Option Unit × ViewProviderProxy :=
  (none, self)

/-- `_ViewProviderCfdReportingFunctions.getIcon`: the icon path joined from
the module path. -/
def getIcon (modulePath : String) : String :=
  modulePath ++ "/Gui/Icons/monitor.svg"

/-- Trace of `_ViewProviderCfdReportingFunctions.attach`: it registers one
display mode, named "Standard", on the view object. -/
def attachTrace : List Effect :=
  [Effect.addDisplayMode "Standard"]

/-- The display-mode names `attach` registers, read off its trace. -/
def attachRegisteredModes : List String :=
  attachTrace.filterMap (fun e =>
    match e with
    | Effect.addDisplayMode m => some m
    | _ => none)

/-- `_ViewProviderCfdReportingFunctions.getDisplayModes`: returns the empty
list. -/
def getDisplayModes (_obj : DocObject) : List String :=
  []

/-- `_ViewProviderCfdReportingFunctions.getDefaultDisplayMode`: returns
"Shaded". -/
def getDefaultDisplayMode : String :=
  "Shaded"

/-- `_ViewProviderCfdReportingFunctions.setDisplayMode`: returns its argument. -/
def setDisplayMode (mode : String) : String :=
  mode

/-- `_ViewProviderCfdReportingFunctions.updateData(obj, prop)`: when a parent
analysis object exists and its proxy is not loading, set its
`NeedsCaseRewrite` to `True`; otherwise do nothing.  `obj` is returned
untouched. -/
def updateData (obj : DocObject) (_prop : String) (parent : Option Analysis) :
    DocObject × Option Analysis × List Effect :=
  match parent with
  | some a =>
      if a.loading then (obj, some a, [])
      else (obj, some { a with needsCaseRewrite := true }, [Effect.setNeedsCaseRewrite])
  | none => (obj, none, [])

/-- Trace of `_ViewProviderCfdReportingFunctions.onChanged`: delegates to
`CfdTools.setCompSolid`. -/
def onChangedTrace : List Effect :=
  [Effect.setCompSolid]

/-- `_ViewProviderCfdReportingFunctions.doubleClicked`: enter edit mode when
the document is not already in edit, else print an error and raise the task
view; returns `True` either way. -/
def doubleClicked (objName : String) (inEdit : Bool) : Bool × List Effect :=
  if !inEdit then (true, [Effect.setEditCmd objName])
  else (true, [Effect.printError "Task dialog already active\n", Effect.showTaskView])

/-- `_ViewProviderCfdReportingFunctions.setEdit`: with no parent analysis
object, show the error box and return `False`; otherwise construct the task
panel, show the object, show the dialog, and return `True`. -/
def setEdit (parent : Option Analysis) (objName : String) : Bool × List Effect :=
  match parent with
  | none =>
      (false, [Effect.errorBox "Reporting function must have a parent analysis object"])
  | some _ =>
      (true, [Effect.createTaskPanel objName, Effect.showObject objName,
              Effect.showDialog objName])

/-- Trace of `_ViewProviderCfdReportingFunctions.unsetEdit`: closes the
dialog. -/
def unsetEditTrace : List Effect :=
  [Effect.closeDialog]

/-- Declaring a property changes only the `props` field of the object. -/
lemma addObjectProperty_frame (obj : DocObject) (d : PropDecl) :
    (addObjectProperty obj d).name = obj.name
    ∧ (addObjectProperty obj d).objType = obj.objType
    ∧ (addObjectProperty obj d).hasProxy = obj.hasProxy
    ∧ (addObjectProperty obj d).hasViewProxy = obj.hasViewProxy := by
  unfold addObjectProperty
  split <;> exact ⟨rfl, rfl, rfl, rfl⟩

/-- Folding property declarations changes only the `props` field. -/
lemma foldl_addObjectProperty_frame (l : List PropDecl) (obj : DocObject) :
    ((l.foldl addObjectProperty obj).name = obj.name)
    ∧ ((l.foldl addObjectProperty obj).objType = obj.objType)
    ∧ ((l.foldl addObjectProperty obj).hasProxy = obj.hasProxy)
    ∧ ((l.foldl addObjectProperty obj).hasViewProxy = obj.hasViewProxy) := by
  induction l generalizing obj with
  | nil => exact ⟨rfl, rfl, rfl, rfl⟩
  | cons d t ih =>
      have h1 := addObjectProperty_frame obj d
      have h2 := ih (addObjectProperty obj d)
      exact ⟨h2.1.trans h1.1, h2.2.1.trans h1.2.1,
             h2.2.2.1.trans h1.2.2.1, h2.2.2.2.trans h1.2.2.2⟩

/-- initProperties changes only the `props` field of the object. -/
lemma initProperties_frame (obj : DocObject) :
    ((initProperties obj).name = obj.name)
    ∧ ((initProperties obj).objType = obj.objType)
    ∧ ((initProperties obj).hasProxy = obj.hasProxy)
    ∧ ((initProperties obj).hasViewProxy = obj.hasViewProxy) :=
  foldl_addObjectProperty_frame initPropertiesDecls obj

/-- The object built by makeCfdReportingFunctions, field by field. -/
lemma makeCfdReportingFunctions_obj (w : World) (name : String) :
    ((makeCfdReportingFunctions w name).2.1.name = name)
    ∧ ((makeCfdReportingFunctions w name).2.1.objType = "Part::FeaturePython")
    ∧ ((makeCfdReportingFunctions w name).2.1.hasProxy = true)
    ∧ ((makeCfdReportingFunctions w name).2.1.hasViewProxy = w.guiUp) := by
  unfold makeCfdReportingFunctions
  have h := initProperties_frame
    { name := name, objType := "Part::FeaturePython", hasProxy := true,
      props := [], hasViewProxy := false }
  cases hg : w.guiUp <;>
    simp only [hg, if_true, if_false] <;>
    exact ⟨h.1, h.2.1, h.2.2.1, by simp [h.2.2.2]⟩

/-- C1: `initProperties` declares `ReportingFunctionType` as an enumeration
whose values are exactly `OBJECT_NAMES = ["Force", "ForceCoefficients",
"Probes"]`, together with the Forces, Force-coefficients, spatial-binning and
Probes properties with their stated default values, and `onDocumentRestored`
re-runs exactly these declarations. -/
theorem initProperties_declares_reporting_properties :
    OBJECT_NAMES = ["Force", "ForceCoefficients", "Probes"]
    ∧ declOf "ReportingFunctionType" =
        some ⟨"ReportingFunctionType", .enum OBJECT_NAMES, "App::PropertyEnumeration", "",
              "Type of reporting function"⟩
    ∧ declOf "Patch" =
        some ⟨"Patch", .link none, "App::PropertyLink", "Function object",
              "Patch on which to create the function object"⟩
    ∧ declOf "ReferenceDensity" =
        some ⟨"ReferenceDensity", .quantity "1 kg/m^3", "App::PropertyQuantity", "Forces",
              "Reference density"⟩
    ∧ declOf "ReferencePressure" =
        some ⟨"ReferencePressure", .pressure "0 Pa", "App::PropertyPressure", "Forces",
              "Reference pressure"⟩
    ∧ declOf "CentreOfRotation" =
        some ⟨"CentreOfRotation", .position 0 0 0, "App::PropertyPosition", "Forces",
              "Centre of rotation"⟩
    ∧ declOf "WriteFields" =
        some ⟨"WriteFields", .pbool false, "App::PropertyBool", "Forces",
              "Whether to write output fields"⟩
    ∧ declOf "Lift" =
        some ⟨"Lift", .vector 1 0 0, "App::PropertyVector", "Force coefficients",
              "Lift direction (x component)"⟩
    ∧ declOf "Drag" =
        some ⟨"Drag", .vector 0 1 0, "App::PropertyVector", "Force coefficients",
              "Drag direction"⟩
    ∧ declOf "Pitch" =
        some ⟨"Pitch", .vector 0 0 1, "App::PropertyVector", "Force coefficients",
              "Centre of pitch"⟩
    ∧ declOf "MagnitudeUInf" =
        some ⟨"MagnitudeUInf", .quantity "1 m/s", "App::PropertyQuantity", "Force coefficients",
              "Freestream velocity magnitude"⟩
    ∧ declOf "LengthRef" =
        some ⟨"LengthRef", .quantity "1 m", "App::PropertyQuantity", "Force coefficients",
              "Coefficient length reference"⟩
    ∧ declOf "AreaRef" =
        some ⟨"AreaRef", .quantity "1 m^2", "App::PropertyQuantity", "Force coefficients",
              "Coefficient area reference"⟩
    ∧ declOf "NBins" =
        some ⟨"NBins", .pint 0, "App::PropertyInteger", "Forces", "Number of bins"⟩
    ∧ declOf "Direction" =
        some ⟨"Direction", .vector 1 0 0, "App::PropertyVector", "Forces",
              "Binning direction"⟩
    ∧ declOf "Cumulative" =
        some ⟨"Cumulative", .pbool true, "App::PropertyBool", "Forces", "Cumulative"⟩
    ∧ declOf "SampleFieldName" =
        some ⟨"SampleFieldName", .pstr "p", "App::PropertyString", "Probes",
              "Name of the field to sample"⟩
    ∧ declOf "ProbePosition" =
        some ⟨"ProbePosition", .position 0 0 0, "App::PropertyPosition", "Probes",
              "Location of the probe sample location"⟩
    ∧ initPropertiesDecls.map PropDecl.name =
        ["ReportingFunctionType", "Patch", "ReferenceDensity", "ReferencePressure",
         "CentreOfRotation", "WriteFields", "Lift", "Drag", "Pitch", "MagnitudeUInf",
         "LengthRef", "AreaRef", "NBins", "Direction", "Cumulative", "SampleFieldName",
         "ProbePosition"]
    ∧ ∀ obj : DocObject, onDocumentRestored obj = initProperties obj := by
  refine ⟨rfl, ?_, ?_, ?_, ?_, ?_, ?_, ?_, ?_, ?_, ?_, ?_, ?_, ?_, ?_, ?_, ?_, ?_, rfl,
    fun obj => rfl⟩ <;> rfl

/-- C2: `makeCfdReportingFunctions` adds a `Part::FeaturePython` object with
the given name (default "ReportingFunction") to the active document, attaches
the proxy, attaches a view-provider proxy exactly when `GuiUp`, and returns
that object; the command's `Activated` instantiates it and adds it to the
active analysis. -/
theorem makeCfdReportingFunctions_spec (w : World) (name : String) :
    ((makeCfdReportingFunctions w name).2.1.objType = "Part::FeaturePython")
    ∧ ((makeCfdReportingFunctions w name).2.1.name = name)
    ∧ ((makeCfdReportingFunctions w name).2.1.hasProxy = true)
    ∧ ((makeCfdReportingFunctions w name).2.1.hasViewProxy = w.guiUp)
    ∧ ((makeCfdReportingFunctions w name).1.doc =
        w.doc ++ [(makeCfdReportingFunctions w name).2.1])
    ∧ (makeCfdReportingFunctionsDefault w = makeCfdReportingFunctions w "ReportingFunction")
    ∧ (∀ a : Analysis, w.activeAnalysis = some a →
        ∃ w2 tr, Activated w = some (w2, tr)
          ∧ w2.activeAnalysis = some { a with members := a.members ++ ["ReportingFunction"] }
          ∧ w2.doc = w.doc ++ [(makeCfdReportingFunctions w "ReportingFunction").2.1]) := by
  obtain ⟨h1, h2, h3, h4⟩ := makeCfdReportingFunctions_obj w name
  refine ⟨h2, h1, h3, h4, rfl, rfl, ?_⟩
  intro a ha
  obtain ⟨g, d, oa⟩ := w
  cases oa with
  | none => cases ha
  | some b =>
      cases ha
      refine ⟨_, _, rfl, ?_, rfl⟩
      have hn := (makeCfdReportingFunctions_obj ⟨g, d, some a⟩ "ReportingFunction").1
      simp [hn]

/-- C2 witness: applying the specification at a concrete world with an active
analysis. -/
theorem makeCfdReportingFunctions_spec_witness :
    ∃ w2 tr, Activated ⟨true, [], some ⟨false, false, []⟩⟩ = some (w2, tr)
      ∧ w2.activeAnalysis = some ⟨false, false, [] ++ ["ReportingFunction"]⟩
      ∧ w2.doc = [] ++
          [(makeCfdReportingFunctions ⟨true, [], some ⟨false, false, []⟩⟩
              "ReportingFunction").2.1] :=
  (makeCfdReportingFunctions_spec ⟨true, [], some ⟨false, false, []⟩⟩
      "ReportingFunction").2.2.2.2.2.2 ⟨false, false, []⟩ rfl

/-- C3: `execute` is a no-op: it returns `None`, leaves the proxy and the
object unchanged, and performs no host effects. -/
theorem execute_noop (self : CfdReportingFunctionsProxy) (obj : DocObject) :
    execute self obj = (none, self, obj, []) :=
  rfl

/-- C4: `__getstate__` of both proxies returns `None`, and `__setstate__` of
both proxies returns `None` and leaves the instance unchanged, for every
state argument. -/
theorem getstate_setstate_trivial (p : CfdReportingFunctionsProxy)
    (v : ViewProviderProxy) (α : Type) (s t : α) :
    proxyGetState p = none
    ∧ vpGetState v = none
    ∧ proxySetState p s = (none, p)
    ∧ vpSetState v t = (none, v) :=
  ⟨rfl, rfl, rfl, rfl⟩

/-- C5: `setEdit` only delegates: with no parent analysis it shows the error
box and returns `False` without opening any dialog; otherwise it constructs
the task panel, shows the dialog, and returns `True`. -/
theorem setEdit_delegates (objName : String) (parent : Option Analysis) :
    (parent = none →
      setEdit parent objName =
        (false, [Effect.errorBox "Reporting function must have a parent analysis object"]))
    ∧ (∀ a : Analysis, parent = some a →
        setEdit parent objName =
          (true, [Effect.createTaskPanel objName, Effect.showObject objName,
                  Effect.showDialog objName])) := by
  constructor
  · intro h
    subst h
    rfl
  · intro a h
    subst h
    rfl

/-- C5 witness: both branches at concrete inputs. -/
theorem setEdit_delegates_witness :
    setEdit none "rf" =
      (false, [Effect.errorBox "Reporting function must have a parent analysis object"])
    ∧ setEdit (some ⟨false, false, []⟩) "rf" =
        (true, [Effect.createTaskPanel "rf", Effect.showObject "rf",
                Effect.showDialog "rf"]) :=
  ⟨(setEdit_delegates "rf" none).1 rfl,
   (setEdit_delegates "rf" (some ⟨false, false, []⟩)).2 ⟨false, false, []⟩ rfl⟩

/-- C6: the display-mode methods are stubs: `getDisplayModes` returns the
empty list for every object and `setDisplayMode` is the identity on modes. -/
theorem displayMode_stubs (obj : DocObject) (mode : String) :
    getDisplayModes obj = [] ∧ setDisplayMode mode = mode :=
  ⟨rfl, rfl⟩

/-- C7: no operation of the module solves, reads or writes simulation
results, or does numerical processing: every effect trace any operation can
produce consists of glue effects only (property declaration, host delegation,
UI). -/
theorem module_traces_glue_only (w : World) (name objName prop : String)
    (obj : DocObject) (parent : Option Analysis) (inEdit : Bool)
    (p : CfdReportingFunctionsProxy) :
    ((makeCfdReportingFunctions w name).2.2.all Effect.isGlue = true)
    ∧ ((Activated w).all (fun r => r.2.all Effect.isGlue) = true)
    ∧ ((execute p obj).2.2.2.all Effect.isGlue = true)
    ∧ (attachTrace.all Effect.isGlue = true)
    ∧ ((updateData obj prop parent).2.2.all Effect.isGlue = true)
    ∧ (onChangedTrace.all Effect.isGlue = true)
    ∧ ((doubleClicked objName inEdit).2.all Effect.isGlue = true)
    ∧ ((setEdit parent objName).2.all Effect.isGlue = true)
    ∧ (unsetEditTrace.all Effect.isGlue = true) := by
  have htr : ∀ n : String, (initPropertiesTrace n).all Effect.isGlue = true :=
    fun n => rfl
  refine ⟨htr name, ?_, rfl, rfl, ?_, rfl, ?_, ?_, rfl⟩
  · obtain ⟨g, d, oa⟩ := w
    cases oa with
    | none => rfl
    | some a => rfl
  · cases parent with
    | none => rfl
    | some a =>
        by_cases h : a.loading
        · simp [updateData, h]
        · simp only [updateData, h, if_false, Bool.false_eq_true]
          rfl
  · cases inEdit <;> rfl
  · cases parent <;> rfl

/-- C8: `IsActive` returns `True` exactly when an active analysis exists. -/
theorem isActive_iff (a : Option Analysis) :
    IsActive a = true ↔ a ≠ none := by
  cases a <;> simp [IsActive]

/-- C9: `updateData` sets the parent analysis's `NeedsCaseRewrite` to `True`
whenever a parent exists and is not loading, for every property name; when
there is no parent or it is loading it changes nothing; and it never modifies
the object itself. -/
theorem updateData_spec (obj : DocObject) (prop : String)
    (parent : Option Analysis) :
    ((updateData obj prop parent).1 = obj)
    ∧ (parent = none → (updateData obj prop parent).2.1 = none)
    ∧ (∀ a : Analysis, parent = some a → a.loading = true →
        (updateData obj prop parent).2.1 = some a)
    ∧ (∀ a : Analysis, parent = some a → a.loading = false →
        (updateData obj prop parent).2.1 = some { a with needsCaseRewrite := true }) := by
  refine ⟨?_, ?_, ?_, ?_⟩
  · cases parent with
    | none => rfl
    | some a => by_cases h : a.loading <;> simp [updateData, h]
  · intro h
    subst h
    rfl
  · intro a h hl
    subst h
    simp [updateData, hl]
  · intro a h hl
    subst h
    simp [updateData, hl]

/-- C9 witness: all three branches at concrete inputs. -/
theorem updateData_spec_witness :
    (updateData ⟨"rf", "Part::FeaturePython", true, [], true⟩ "Patch" none).2.1 = none
    ∧ (updateData ⟨"rf", "Part::FeaturePython", true, [], true⟩ "Patch"
          (some ⟨true, false, []⟩)).2.1 = some ⟨true, false, []⟩
    ∧ (updateData ⟨"rf", "Part::FeaturePython", true, [], true⟩ "Patch"
          (some ⟨false, false, []⟩)).2.1 = some ⟨false, true, []⟩ :=
  ⟨(updateData_spec ⟨"rf", "Part::FeaturePython", true, [], true⟩ "Patch" none).2.1 rfl,
   (updateData_spec ⟨"rf", "Part::FeaturePython", true, [], true⟩ "Patch"
      (some ⟨true, false, []⟩)).2.2.1 ⟨true, false, []⟩ rfl rfl,
   (updateData_spec ⟨"rf", "Part::FeaturePython", true, [], true⟩ "Patch"
      (some ⟨false, false, []⟩)).2.2.2 ⟨false, false, []⟩ rfl rfl⟩

/-- C10: the default display mode "Shaded" is neither in the (empty) list
returned by `getDisplayModes` nor among the modes `attach` registers (only
"Standard"): the default display mode is never one of the declared display
modes. -/
theorem defaultDisplayMode_never_declared (obj : DocObject) :
    getDefaultDisplayMode = "Shaded"
    ∧ getDefaultDisplayMode ∉ getDisplayModes obj
    ∧ attachRegisteredModes = ["Standard"]
    ∧ getDefaultDisplayMode ∉ attachRegisteredModes := by
  refine ⟨rfl, ?_, rfl, ?_⟩
  · simp [getDisplayModes]
  · decide

end CfdReportingFunctions
